import Mathlib

/-!
Shallow embedding of `src/NavigationTracker.ts` (class `NavigationTracker`)
from the appium-navigation-tracker repository.

Modelling conventions:
- The mutable instance fields relevant to the inference/journal core become
  the record `TrackerState`.  Fields that only feed logging or persistence
  (`driver`, `testName`, `specFile`, `sessionId`, `resultsDir`, `isAndroid`,
  `isIOS`, `platformName`) play no role in the claims and are omitted.
- Calls into the external Appium driver (`getPageSource`, `getCurrentUrl`)
  and wall-clock reads are modelled by an explicit `Env` argument.  A failing
  (throwing) collaborator call is `none`; a successful call is `some value`.
- `Date.now()` becomes an explicit `now : Nat` argument; `new Date()
  .toISOString()` becomes an explicit opaque timestamp string argument.
- JavaScript truthiness of a string is `≠ ""`.
- `async` methods contain no real concurrency (the class awaits each driver
  call and the caller awaits each method), so they are modelled as pure
  state transformers.
- The two instrumentation bits `usedHint` and `classifierInvoked` in
  `InferResult` record which branch of `getCurrentScreenName` produced the
  result; they change no data flow.
-/

namespace NavTracker

/-- Journal-entry record: the `Navigation` interface of the source. -/
structure Navigation where
  previous_screen : String
  current_screen : String
  timestamp : String
  navigation_type : String
deriving DecidableEq, Repr

/-- The mutable fields of class `NavigationTracker` that the inference and
journal logic reads or writes. -/
structure TrackerState where
  currentScreen : String
  navigations : List Navigation
  lastCheckTime : Nat
  minCheckInterval : Nat
  lastPageSourceHash : String
  lastAction : String
deriving DecidableEq, Repr

/-- External collaborator results for one inference attempt:
`pageSource = none` models `driver.getPageSource()` throwing,
`currentUrl = none` models `driver.getCurrentUrl()` throwing (or returning a
non-string); `hours`/`minutes`/`seconds` are the wall-clock components used
by the synthetic fallback name. -/
structure Env where
  pageSource : Option String
  currentUrl : Option String
  hours : Nat
  minutes : Nat
  seconds : Nat
deriving DecidableEq, Repr

/-- Result of `getCurrentScreenName`: the returned name, the updated state,
and two instrumentation flags recording whether the action-hint branch
produced the result and whether `identifyScreenFromPageSource` was run. -/
structure InferResult where
  name : String
  state : TrackerState
  usedHint : Bool
  classifierInvoked : Bool
deriving DecidableEq, Repr

/-- Lookup table for the `actionScreenMap` populated by `initializeActionScreenMap`
(ten `Map.set` calls on distinct keys); `Map.get` on the resulting map is
this lookup, `Map.has` is `(actionScreenGet id).isSome`. -/
def actionScreenGet (id : String) : Option String :=
  if id = "color" then some "Color Screen"
  else if id = "Text" then some "Text Screen"
  else if id = "toast" then some "Toast Screen"
  else if id = "notification" then some "Notification Screen"
  else if id = "geoLocation" then some "Geolocation Screen"
  else if id = "buttonPage" then some "Home Screen"
  else if id = "speedTest" then some "Speed Test Screen"
  else if id = "webview" then some "WebView Screen"
  else if id = "find" then some "Browser Content Screen"
  else if id = "Back" then some "Home Screen"
  else none

/-- JavaScript `ToInt32`: wrap an integer into `[-2^31, 2^31)`. -/
def int32 (x : Int) : Int := (x + 2 ^ 31) % 2 ^ 32 - 2 ^ 31

/-- One iteration of the loop in `hashString`:
`hash = ((hash << 5) - hash) + charCode; hash = hash & hash`.
`hash << 5` coerces to 32-bit before shifting, `hash & hash` coerces the sum;
`Char.toNat` stands for `charCodeAt` (they agree on the Basic Multilingual
Plane, which covers every marker string the class compares against). -/
def hashStep (hsh : Int) (c : Char) : Int :=
  int32 (int32 (hsh * 32) - hsh + c.toNat)

/-- Model of `hashString` of the source: a 32-bit polynomial string hash rendered in
decimal; the empty string maps to `"0"`. -/
def hashString (str : String) : String :=
  if str.length = 0 then toString (0 : Int)
  else toString (str.toList.foldl hashStep 0)

/-- JavaScript `String.prototype.includes`: substring containment. -/
def strIncludes (s pat : String) : Bool :=
  (List.range (s.toList.length + 1)).any fun i =>
    List.isPrefixOf pat.toList (s.toList.drop i)

/-- The text-content rules of `identifyScreenFromPageSource` reached when the
element-id rules above them did not return. -/
def identifyByText (pageSource : String) : Option String :=
  if strIncludes pageSource ">Color<" || strIncludes pageSource "\"Color\"" then
    some "Color Screen"
  else if strIncludes pageSource ">Geolocation<" || strIncludes pageSource "\"Geolocation\"" then
    some "Geolocation Screen"
  else if strIncludes pageSource ">Speed Test<" || strIncludes pageSource "\"Speed Test\"" then
    some "Speed Test Screen"
  else if strIncludes pageSource "www.lambdatest.com" then
    some "LambdaTest Website"
  else none

/-- Model of `identifyScreenFromPageSource` of the source.  Its `try`/`catch` is
vacuous here (every operation inside is total), so the `catch` arm is not
modelled.  If the source contains `id="Back"` but none of the six
detail-screen sub-markers, control falls out of the `if` block into the
text-content rules, exactly as in the source. -/
def identifyScreenFromPageSource (pageSource : String) : Option String :=
  if strIncludes pageSource "id=\"color\"" && strIncludes pageSource "id=\"Text\"" &&
      strIncludes pageSource "id=\"toast\"" then
    some "Home Screen"
  else if strIncludes pageSource "id=\"url\"" && strIncludes pageSource "id=\"find\"" then
    some "WebView Screen"
  else if strIncludes pageSource "id=\"Back\"" then
    if strIncludes pageSource "id=\"colorSelection\"" then some "Color Screen"
    else if strIncludes pageSource "id=\"textInput\"" then some "Text Screen"
    else if strIncludes pageSource "id=\"showToast\"" then some "Toast Screen"
    else if strIncludes pageSource "id=\"showNotification\"" then some "Notification Screen"
    else if strIncludes pageSource "id=\"gpsLocation\"" then some "Geolocation Screen"
    else if strIncludes pageSource "id=\"startTest\"" then some "Speed Test Screen"
    else identifyByText pageSource
  else identifyByText pageSource

/-- Model of `addNavigation` of the source: a silent no-op when the journal is
non-empty and its last entry's `current_screen` equals the `currentScreen`
argument; otherwise pushes a new entry and updates `this.currentScreen`. -/
def addNavigation (s : TrackerState)
    (previousScreen currentScreen navigationType ts : String) : TrackerState :=
  if s.navigations ≠ [] ∧
      (s.navigations.getLast?).map Navigation.current_screen = some currentScreen then
    s
  else
    { s with
      navigations := s.navigations ++
        [{ previous_screen := previousScreen, current_screen := currentScreen,
           timestamp := ts, navigation_type := navigationType }],
      currentScreen := currentScreen }

/-- Model of `recordUserAction` of the source: sets `lastAction` unconditionally, then
if the element is in the map and its screen is truthy and differs from the
current screen, records a `user_interaction` navigation. -/
def recordUserAction (s : TrackerState) (elementId ts : String) : TrackerState :=
  let s1 := { s with lastAction := elementId }
  if (actionScreenGet elementId).isSome then
    let newScreen := (actionScreenGet elementId).getD ""
    if newScreen != "" && newScreen != s1.currentScreen then
      addNavigation s1 s1.currentScreen newScreen "user_interaction" ts
    else s1
  else s1

/-- Model of `beforeClick` of the source: sets `lastAction` only for a truthy element
id that is a key of the map. -/
def beforeClick (s : TrackerState) (elementId : String) : TrackerState :=
  if elementId != "" && (actionScreenGet elementId).isSome then
    { s with lastAction := elementId }
  else s

/-- The fallback branch of `getCurrentScreenName`:
`` `Screen at ${hours}:${minutes}:${seconds}` ``. -/
def fallbackName (env : Env) : String :=
  "Screen at " ++ toString env.hours ++ ":" ++ toString env.minutes ++ ":" ++
    toString env.seconds

/-- The WebView-URL and fallback tail of `getCurrentScreenName`: when the
page source is truthy and mentions a WebView, try `getCurrentUrl` and label
by the last path segment (`url.split('/').pop() || url`); a throw or a falsy
url falls through to the timestamp fallback. -/
def urlStep (s : TrackerState) (env : Env) (pageSource : String)
    (inv : Bool) : InferResult :=
  if pageSource != "" &&
      (strIncludes pageSource "WebView" || strIncludes pageSource "webview") then
    match env.currentUrl with
    | some url =>
      if url != "" then
        let lastSeg := ((url.splitOn "/").getLast?).getD ""
        { name := "WebView: " ++ (if lastSeg != "" then lastSeg else url),
          state := s, usedHint := false, classifierInvoked := inv }
      else
        { name := fallbackName env, state := s, usedHint := false,
          classifierInvoked := inv }
    | none =>
      { name := fallbackName env, state := s, usedHint := false,
        classifierInvoked := inv }
  else
    { name := fallbackName env, state := s, usedHint := false,
      classifierInvoked := inv }

/-- The page-source portion of `getCurrentScreenName`: a throwing
`getPageSource` leaves the local `pageSource` equal to `''`; a truthy page
source is hashed, an unchanged hash short-circuits to the current screen,
and a changed hash is stored before the classifier runs. -/
def pageStep (s : TrackerState) (env : Env) : InferResult :=
  let pageSource := env.pageSource.getD ""
  if pageSource != "" then
    let sourceHash := hashString pageSource
    if sourceHash = s.lastPageSourceHash then
      { name := s.currentScreen, state := s, usedHint := false,
        classifierInvoked := false }
    else
      let s2 := { s with lastPageSourceHash := sourceHash }
      match identifyScreenFromPageSource pageSource with
      | some detectedScreen =>
        { name := detectedScreen, state := s2, usedHint := false,
          classifierInvoked := true }
      | none => urlStep s2 env pageSource true
  else urlStep s env pageSource false

/-- Model of `getCurrentScreenName` of the source.  The action-hint branch is checked
first: a truthy `lastAction` that is a key of the map returns its mapped
screen and clears `lastAction` (one-shot).  The outer `try`/`catch` is
vacuous here because every collaborator failure is already modelled by
`none` and handled by the inner logic, exactly as in the source. -/
def getCurrentScreenName (s : TrackerState) (env : Env) : InferResult :=
  if s.lastAction != "" && (actionScreenGet s.lastAction).isSome then
    let inferredScreen := (actionScreenGet s.lastAction).getD ""
    if inferredScreen != "" then
      { name := inferredScreen, state := { s with lastAction := "" },
        usedHint := true, classifierInvoked := false }
    else pageStep s env
  else pageStep s env

/-- Model of `trackNavigation` of the source.  Returns the new state and whether the
throttle admitted the call (`true` exactly when `getCurrentScreenName` was
invoked).  Nat subtraction truncates at `0` where JavaScript would go
negative; both compare `< minCheckInterval` identically, since a negative
difference and `0` are each below the positive interval. -/
def trackNavigation (s : TrackerState) (now : Nat) (env : Env)
    (ts : String) : TrackerState × Bool :=
  if now - s.lastCheckTime < s.minCheckInterval then (s, false)
  else
    let s1 := { s with lastCheckTime := now }
    let r := getCurrentScreenName s1 env
    if r.name != "" && r.name != r.state.currentScreen then
      (addNavigation r.state r.state.currentScreen r.name "navigation_detected" ts, true)
    else (r.state, true)

/-- Model of `afterClick` of the source: a 300 ms settle delay (real time, reflected
only in the caller-supplied `now`) followed by `trackNavigation`. -/
def afterClick (s : TrackerState) (now : Nat) (env : Env)
    (ts : String) : TrackerState × Bool :=
  trackNavigation s now env ts

/-- The field initialisers of the class: empty screen and journal,
`lastCheckTime = 0`, `minCheckInterval = 300`, empty hash and action. -/
def initialState : TrackerState :=
  { currentScreen := "", navigations := [], lastCheckTime := 0,
    minCheckInterval := 300, lastPageSourceHash := "", lastAction := "" }

/-- The constructor: `resetResultsDirectory` (whose only effect on the
modelled state is `addNavigation('', 'App Start', 'test_start')`; the
filesystem reset touches no modelled field), then `detectPlatformSync`
(touches no modelled field), then `initializeActionScreenMap`, whose final
statement sets `currentScreen = 'Home Screen'`.  `ts` is the ISO timestamp
taken during the initial `addNavigation`. -/
def mkTracker (ts : String) : TrackerState :=
  let s := addNavigation initialState "" "App Start" "test_start" ts
  { s with currentScreen := "Home Screen" }

/-- One public operation on a tracker, with all collaborator inputs
explicit. -/
inductive Op where
  | record (elementId ts : String)
  | before (elementId : String)
  | track (now : Nat) (env : Env) (ts : String)
  | after (now : Nat) (env : Env) (ts : String)
deriving DecidableEq, Repr

/-- Interpret one public operation. -/
def applyOp (s : TrackerState) : Op → TrackerState
  | .record elementId ts => recordUserAction s elementId ts
  | .before elementId => beforeClick s elementId
  | .track now env ts => (trackNavigation s now env ts).1
  | .after now env ts => (afterClick s now env ts).1

/-- Run a sequence of public operations. -/
def runOps (s : TrackerState) (ops : List Op) : TrackerState :=
  ops.foldl applyOp s

/-- The journal has no two adjacent entries with equal `current_screen`. -/
def adjOk (l : List Navigation) : Prop :=
  List.Chain' (fun a b => a.current_screen ≠ b.current_screen) l

/-- Invariant: `currentScreen` equals the `current_screen` of the most recent
journal entry, once at least one entry exists. -/
def currentScreenInv (s : TrackerState) : Prop :=
  s.navigations ≠ [] →
    (s.navigations.getLast?).map Navigation.current_screen = some s.currentScreen

end NavTracker


namespace NavTracker

/-! ### Frame lemmas -/

theorem urlStep_state (s : TrackerState) (env : Env) (p : String) (i : Bool) :
    (urlStep s env p i).state = s := by
  unfold urlStep
  repeat' split
  all_goals rfl

theorem urlStep_usedHint (s : TrackerState) (env : Env) (p : String) (i : Bool) :
    (urlStep s env p i).usedHint = false := by
  unfold urlStep
  repeat' split
  all_goals rfl

theorem pageStep_state_cases (s : TrackerState) (env : Env) :
    (pageStep s env).state = s ∨
      (pageStep s env).state =
        { s with lastPageSourceHash := hashString (env.pageSource.getD "") } := by
  unfold pageStep
  dsimp only
  repeat' split
  all_goals simp [urlStep_state]

theorem pageStep_usedHint (s : TrackerState) (env : Env) :
    (pageStep s env).usedHint = false := by
  unfold pageStep
  dsimp only
  repeat' split
  all_goals simp [urlStep_usedHint]

theorem getCurrentScreenName_state_cases (s : TrackerState) (env : Env) :
    (getCurrentScreenName s env).state = s ∨
      (getCurrentScreenName s env).state = { s with lastAction := "" } ∨
      (getCurrentScreenName s env).state =
        { s with lastPageSourceHash := hashString (env.pageSource.getD "") } := by
  unfold getCurrentScreenName
  dsimp only
  repeat' split
  · right; left; rfl
  all_goals exact (pageStep_state_cases s env).elim Or.inl (fun h => Or.inr (Or.inr h))

theorem getCurrentScreenName_navs (s : TrackerState) (env : Env) :
    (getCurrentScreenName s env).state.navigations = s.navigations := by
  rcases getCurrentScreenName_state_cases s env with h | h | h <;> rw [h]

theorem getCurrentScreenName_currentScreen (s : TrackerState) (env : Env) :
    (getCurrentScreenName s env).state.currentScreen = s.currentScreen := by
  rcases getCurrentScreenName_state_cases s env with h | h | h <;> rw [h]

theorem getCurrentScreenName_lastCheckTime (s : TrackerState) (env : Env) :
    (getCurrentScreenName s env).state.lastCheckTime = s.lastCheckTime := by
  rcases getCurrentScreenName_state_cases s env with h | h | h <;> rw [h]

theorem getCurrentScreenName_minCheckInterval (s : TrackerState) (env : Env) :
    (getCurrentScreenName s env).state.minCheckInterval = s.minCheckInterval := by
  rcases getCurrentScreenName_state_cases s env with h | h | h <;> rw [h]

theorem getCurrentScreenName_usedHint_of_noAction (s : TrackerState) (env : Env)
    (h : s.lastAction = "") : (getCurrentScreenName s env).usedHint = false := by
  unfold getCurrentScreenName
  simp [h, pageStep_usedHint]

theorem addNavigation_lastCheckTime (s : TrackerState) (p c nt ts : String) :
    (addNavigation s p c nt ts).lastCheckTime = s.lastCheckTime := by
  unfold addNavigation
  split <;> rfl

theorem addNavigation_minCheckInterval (s : TrackerState) (p c nt ts : String) :
    (addNavigation s p c nt ts).minCheckInterval = s.minCheckInterval := by
  unfold addNavigation
  split <;> rfl

theorem addNavigation_lastAction (s : TrackerState) (p c nt ts : String) :
    (addNavigation s p c nt ts).lastAction = s.lastAction := by
  unfold addNavigation
  split <;> rfl

end NavTracker

namespace NavTracker

/-! ### Journal invariant lemmas -/

theorem adjOk_append (l : List Navigation) (n : Navigation) (h : adjOk l)
    (hne : (l.getLast?).map Navigation.current_screen ≠ some n.current_screen) :
    adjOk (l ++ [n]) := by
  unfold adjOk at h ⊢
  rw [List.chain'_append]
  refine ⟨h, List.chain'_singleton _, ?_⟩
  intro x hx y hy
  rw [Option.mem_def] at hx hy
  simp only [List.head?_cons, Option.some.injEq] at hy
  subst hy
  intro hcs
  exact hne (by rw [hx]; simp [hcs])

theorem addNavigation_adjOk (s : TrackerState) (p c nt ts : String)
    (h : adjOk s.navigations) : adjOk (addNavigation s p c nt ts).navigations := by
  unfold addNavigation
  split
  · exact h
  · rename_i hcond
    push_neg at hcond
    by_cases hl : s.navigations = []
    · simp [hl, adjOk]
    · exact adjOk_append _ _ h (hcond hl)

theorem addNavigation_currentScreenInv (s : TrackerState) (p c nt ts : String)
    (h : currentScreenInv s) : currentScreenInv (addNavigation s p c nt ts) := by
  unfold addNavigation
  split
  · exact h
  · intro _
    simp [List.getLast?_concat]

theorem addNavigation_dedup_noop (s : TrackerState) (p c nt ts : String)
    (h : (s.navigations.getLast?).map Navigation.current_screen = some c) :
    addNavigation s p c nt ts = s := by
  unfold addNavigation
  rw [if_pos]
  refine ⟨?_, h⟩
  intro hnil
  rw [hnil] at h
  simp at h

theorem beforeClick_navs (s : TrackerState) (id : String) :
    (beforeClick s id).navigations = s.navigations := by
  unfold beforeClick
  split <;> rfl

theorem recordUserAction_adjOk (s : TrackerState) (id ts : String)
    (h : adjOk s.navigations) : adjOk (recordUserAction s id ts).navigations := by
  unfold recordUserAction
  dsimp only
  repeat' split
  · exact addNavigation_adjOk _ _ _ _ _ h
  · exact h
  · exact h

theorem trackNavigation_adjOk (s : TrackerState) (now : Nat) (env : Env) (ts : String)
    (h : adjOk s.navigations) : adjOk (trackNavigation s now env ts).1.navigations := by
  unfold trackNavigation
  dsimp only
  repeat' split
  · exact h
  · apply addNavigation_adjOk
    rw [getCurrentScreenName_navs]
    exact h
  · rw [getCurrentScreenName_navs]
    exact h

theorem applyOp_adjOk (s : TrackerState) (op : Op) (h : adjOk s.navigations) :
    adjOk (applyOp s op).navigations := by
  cases op with
  | record id ts => exact recordUserAction_adjOk s id ts h
  | before id =>
    show adjOk (beforeClick s id).navigations
    rw [beforeClick_navs]
    exact h
  | track now env ts => exact trackNavigation_adjOk _ _ _ _ h
  | after now env ts => exact trackNavigation_adjOk _ _ _ _ h

theorem runOps_adjOk (s : TrackerState) (ops : List Op) (h : adjOk s.navigations) :
    adjOk (runOps s ops).navigations := by
  induction ops generalizing s with
  | nil => exact h
  | cons op rest ih => exact ih _ (applyOp_adjOk s op h)

theorem mkTracker_navs (ts : String) :
    (mkTracker ts).navigations =
      [{ previous_screen := "", current_screen := "App Start",
         timestamp := ts, navigation_type := "test_start" }] := rfl

theorem mkTracker_adjOk (ts : String) : adjOk (mkTracker ts).navigations := by
  rw [mkTracker_navs]
  exact List.chain'_singleton _

/-! ### currentScreen synchronisation lemmas -/

theorem getCurrentScreenName_inv (s : TrackerState) (env : Env)
    (h : currentScreenInv s) : currentScreenInv (getCurrentScreenName s env).state := by
  unfold currentScreenInv at h ⊢
  rw [getCurrentScreenName_navs, getCurrentScreenName_currentScreen]
  exact h

theorem recordUserAction_inv (s : TrackerState) (id ts : String)
    (h : currentScreenInv s) : currentScreenInv (recordUserAction s id ts) := by
  unfold recordUserAction
  dsimp only
  repeat' split
  · exact addNavigation_currentScreenInv _ _ _ _ _ h
  · exact h
  · exact h

theorem trackNavigation_inv (s : TrackerState) (now : Nat) (env : Env) (ts : String)
    (h : currentScreenInv s) : currentScreenInv (trackNavigation s now env ts).1 := by
  unfold trackNavigation
  dsimp only
  repeat' split
  · exact h
  · exact addNavigation_currentScreenInv _ _ _ _ _ (getCurrentScreenName_inv _ _ h)
  · exact getCurrentScreenName_inv _ _ h

theorem applyOp_inv (s : TrackerState) (op : Op) (h : currentScreenInv s) :
    currentScreenInv (applyOp s op) := by
  cases op with
  | record id ts => exact recordUserAction_inv s id ts h
  | before id =>
    show currentScreenInv (beforeClick s id)
    unfold currentScreenInv
    rw [beforeClick_navs]
    unfold beforeClick
    split <;> exact h
  | track now env ts => exact trackNavigation_inv _ _ _ _ h
  | after now env ts => exact trackNavigation_inv _ _ _ _ h

theorem runOps_inv (s : TrackerState) (ops : List Op) (h : currentScreenInv s) :
    currentScreenInv (runOps s ops) := by
  induction ops generalizing s with
  | nil => exact h
  | cons op rest ih => exact ih _ (applyOp_inv s op h)

/-! ### Throttle lemmas -/

theorem trackNavigation_snd_iff (s : TrackerState) (now : Nat) (env : Env) (ts : String) :
    (trackNavigation s now env ts).2 = true ↔
      ¬ (now - s.lastCheckTime < s.minCheckInterval) := by
  unfold trackNavigation
  dsimp only
  split <;> rename_i hcond
  · simp [hcond]
  · split <;> simp [hcond]

theorem trackNavigation_accepted_fields (s : TrackerState) (now : Nat) (env : Env)
    (ts : String) (h : ¬ (now - s.lastCheckTime < s.minCheckInterval)) :
    (trackNavigation s now env ts).1.lastCheckTime = now ∧
      (trackNavigation s now env ts).1.minCheckInterval = s.minCheckInterval := by
  unfold trackNavigation
  rw [if_neg h]
  dsimp only
  split
  · constructor
    · rw [addNavigation_lastCheckTime, getCurrentScreenName_lastCheckTime]
    · rw [addNavigation_minCheckInterval, getCurrentScreenName_minCheckInterval]
  · constructor
    · rw [getCurrentScreenName_lastCheckTime]
    · rw [getCurrentScreenName_minCheckInterval]

end NavTracker

namespace NavTracker

/-! ### Further helper lemmas -/

theorem urlStep_classifierInvoked (s : TrackerState) (env : Env) (p : String) (i : Bool) :
    (urlStep s env p i).classifierInvoked = i := by
  unfold urlStep
  repeat' split
  all_goals rfl

theorem actionScreenGet_values_nonempty (id scr : String)
    (h : actionScreenGet id = some scr) : scr ≠ "" := by
  unfold actionScreenGet at h
  repeat' split at h
  all_goals first
    | (cases h; decide)
    | simp at h

theorem addNavigation_append_establishes (s : TrackerState) (p c nt ts : String)
    (h : (addNavigation s p c nt ts).navigations ≠ s.navigations) :
    currentScreenInv (addNavigation s p c nt ts) := by
  unfold addNavigation at h ⊢
  split at h
  · exact absurd rfl h
  · rename_i hcond
    rw [if_neg hcond]
    intro _
    simp [List.getLast?_concat]

/-! ### Claim theorems -/

/-- C1: for every sequence of public operations on a freshly constructed
tracker, the journal never contains two adjacent entries with equal
`current_screen`; and `addNavigation` is a no-op whenever the journal is
non-empty and its last entry's `current_screen` equals the `currentScreen`
argument. -/
theorem journal_no_adjacent_duplicates (ts : String) (ops : List Op) :
    adjOk (runOps (mkTracker ts) ops).navigations ∧
    ∀ (s : TrackerState) (p c nt ts2 : String),
      (s.navigations.getLast?).map Navigation.current_screen = some c →
      addNavigation s p c nt ts2 = s :=
  ⟨runOps_adjOk _ _ (mkTracker_adjOk ts),
   fun s p c nt ts2 h => addNavigation_dedup_noop s p c nt ts2 h⟩

/-- Witness for C1 at a concrete operation sequence and a concrete dedup
call. -/
theorem journal_no_adjacent_duplicates_witness :
    adjOk (runOps (mkTracker "t0") [Op.record "color" "t1"]).navigations ∧
    addNavigation (mkTracker "t0") "Home Screen" "App Start" "navigation_detected" "t2" =
      mkTracker "t0" :=
  ⟨(journal_no_adjacent_duplicates "t0" [Op.record "color" "t1"]).1,
   (journal_no_adjacent_duplicates "t0" []).2 (mkTracker "t0") "Home Screen" "App Start"
     "navigation_detected" "t2" (by decide)⟩

/-- C2 counterexample: immediately after construction the claimed invariant
fails — the journal's only entry has `current_screen = "App Start"` while
`currentScreen` is `"Home Screen"` (the constructor runs
`initializeActionScreenMap`, which overwrites `currentScreen`, after the
initial `addNavigation`). -/
theorem construction_breaks_screen_sync : ¬ currentScreenInv (mkTracker "t0") := by
  unfold currentScreenInv
  decide

/-- C2 amended: the synchronisation invariant — `currentScreen` equals the
`current_screen` of the most recent journal entry — is preserved by every
sequence of public operations from any state already satisfying it, and is
established by every `addNavigation` call that actually appends an entry;
it does not, however, hold immediately after construction
(see the counterexample). -/
theorem screen_sync_preserved (s : TrackerState) (ops : List Op)
    (h : currentScreenInv s) :
    currentScreenInv (runOps s ops) ∧
    ∀ (s2 : TrackerState) (p c nt ts : String),
      (addNavigation s2 p c nt ts).navigations ≠ s2.navigations →
      currentScreenInv (addNavigation s2 p c nt ts) :=
  ⟨runOps_inv s ops h,
   fun s2 p c nt ts h2 => addNavigation_append_establishes s2 p c nt ts h2⟩

/-- Witness for the amended C2 at a concrete synchronised state and a
concrete appending `addNavigation` call. -/
theorem screen_sync_preserved_witness :
    currentScreenInv (runOps (recordUserAction (mkTracker "t0") "color" "t1")
        [Op.before "Text"]) ∧
    currentScreenInv (addNavigation (mkTracker "t0") "Home Screen" "Color Screen"
        "user_interaction" "t1") :=
  ⟨(screen_sync_preserved (recordUserAction (mkTracker "t0") "color" "t1") [Op.before "Text"]
      (by unfold currentScreenInv; decide)).1,
   (screen_sync_preserved (recordUserAction (mkTracker "t0") "color" "t1") []
      (by unfold currentScreenInv; decide)).2
     (mkTracker "t0") "Home Screen" "Color Screen" "user_interaction" "t1" (by decide)⟩

/-- C3: the action hint is one-shot — when `lastAction` is set and is a key
of the action-to-screen map, `getCurrentScreenName` returns the mapped
screen via the hint branch and clears `lastAction`, so a second inference on
the resulting state (with any environment) does not return via the hint
branch. -/
theorem action_hint_one_shot (s : TrackerState) (e1 e2 : Env) (scr : String)
    (h1 : s.lastAction ≠ "") (h2 : actionScreenGet s.lastAction = some scr) :
    (getCurrentScreenName s e1).name = scr ∧
    (getCurrentScreenName s e1).usedHint = true ∧
    (getCurrentScreenName s e1).state.lastAction = "" ∧
    (getCurrentScreenName (getCurrentScreenName s e1).state e2).usedHint = false := by
  have hne := actionScreenGet_values_nonempty _ _ h2
  have hstate : getCurrentScreenName s e1 =
      { name := scr, state := { s with lastAction := "" }, usedHint := true,
        classifierInvoked := false } := by
    unfold getCurrentScreenName
    rw [h2]
    simp [h1, hne]
  rw [hstate]
  exact ⟨rfl, rfl, rfl, getCurrentScreenName_usedHint_of_noAction _ e2 rfl⟩

/-- Witness for C3: `beforeClick "color"` sets the hint, the first inference
resolves it to `"Color Screen"`, the second does not use the hint branch. -/
theorem action_hint_one_shot_witness :
    (getCurrentScreenName (beforeClick (mkTracker "t0") "color")
        ⟨none, none, 1, 2, 3⟩).name = "Color Screen" ∧
    (getCurrentScreenName (beforeClick (mkTracker "t0") "color")
        ⟨none, none, 1, 2, 3⟩).usedHint = true ∧
    (getCurrentScreenName (beforeClick (mkTracker "t0") "color")
        ⟨none, none, 1, 2, 3⟩).state.lastAction = "" ∧
    (getCurrentScreenName (getCurrentScreenName (beforeClick (mkTracker "t0") "color")
        ⟨none, none, 1, 2, 3⟩).state ⟨none, none, 1, 2, 3⟩).usedHint = false :=
  action_hint_one_shot (beforeClick (mkTracker "t0") "color") ⟨none, none, 1, 2, 3⟩
    ⟨none, none, 1, 2, 3⟩ "Color Screen" (by decide) (by decide)

/-- C4 counterexample: `recordUserAction "color"` on a freshly constructed
tracker appends a journal entry, refuting the claim that the hint-recording
operations never append to the journal. -/
theorem recordUserAction_appends_to_journal :
    (recordUserAction (mkTracker "t0") "color" "t1").navigations ≠
      (mkTracker "t0").navigations := by decide

/-- C4 amended: `beforeClick` never appends a journal entry;
`recordUserAction` always sets `lastAction`, leaves the journal state
unchanged when the element id is unmapped or maps to the current screen, and
otherwise hands the journal to `addNavigation` (which appends subject to its
adjacent-dedup rule). -/
theorem hint_recording_effects (s : TrackerState) (id ts : String) :
    (beforeClick s id).navigations = s.navigations ∧
    (recordUserAction s id ts).lastAction = id ∧
    (actionScreenGet id = none → recordUserAction s id ts = { s with lastAction := id }) ∧
    (∀ scr, actionScreenGet id = some scr → scr = s.currentScreen →
      recordUserAction s id ts = { s with lastAction := id }) ∧
    (∀ scr, actionScreenGet id = some scr → scr ≠ s.currentScreen →
      recordUserAction s id ts =
        addNavigation { s with lastAction := id } s.currentScreen scr
          "user_interaction" ts) := by
  refine ⟨beforeClick_navs s id, ?_, ?_, ?_, ?_⟩
  · unfold recordUserAction
    dsimp only
    repeat' split
    · rw [addNavigation_lastAction]
    · rfl
    · rfl
  · intro h
    unfold recordUserAction
    simp [h]
  · intro scr h hscr
    unfold recordUserAction
    rw [h]
    simp [hscr]
  · intro scr h hscr
    have hne := actionScreenGet_values_nonempty _ _ h
    unfold recordUserAction
    rw [h]
    simp [hne, hscr]

/-- Witness for the amended C4 at concrete inputs. -/
theorem hint_recording_effects_witness :
    (beforeClick (mkTracker "t0") "find").navigations = (mkTracker "t0").navigations ∧
    recordUserAction (mkTracker "t0") "color" "t1" =
      addNavigation { mkTracker "t0" with lastAction := "color" }
        (mkTracker "t0").currentScreen "Color Screen" "user_interaction" "t1" :=
  ⟨(hint_recording_effects (mkTracker "t0") "find" "t1").1,
   (hint_recording_effects (mkTracker "t0") "color" "t1").2.2.2.2 "Color Screen" rfl
     (by decide)⟩

/-- C5 counterexample: two `trackNavigation` calls 200 ms apart (below the
300 ms `minCheckInterval`) where the first is itself rejected by the
throttle: the second call then passes the throttle, performs an inference
attempt and changes the tracker state, refuting the claim that the second
of two close calls is always a no-op. -/
theorem throttle_claim_counterexample :
    (400 : Nat) - 200 < (mkTracker "t0").minCheckInterval ∧
    (trackNavigation (mkTracker "t0") 200 ⟨none, none, 1, 2, 3⟩ "t1").2 = false ∧
    (trackNavigation (trackNavigation (mkTracker "t0") 200 ⟨none, none, 1, 2, 3⟩ "t1").1
        400 ⟨none, none, 1, 2, 3⟩ "t2").2 = true ∧
    (trackNavigation (trackNavigation (mkTracker "t0") 200 ⟨none, none, 1, 2, 3⟩ "t1").1
        400 ⟨none, none, 1, 2, 3⟩ "t2").1 ≠
      (trackNavigation (mkTracker "t0") 200 ⟨none, none, 1, 2, 3⟩ "t1").1 := by decide

/-- C5 amended: when the first of two `trackNavigation` calls passes the
throttle (performs an inference attempt) and the second comes less than
`minCheckInterval` after it, the second call performs no inference attempt
and returns the state completely unchanged. -/
theorem throttle_after_accepted_attempt (s : TrackerState) (t1 t2 : Nat)
    (e1 e2 : Env) (ts1 ts2 : String) (hgap : t2 - t1 < s.minCheckInterval)
    (hacc : (trackNavigation s t1 e1 ts1).2 = true) :
    trackNavigation (trackNavigation s t1 e1 ts1).1 t2 e2 ts2 =
      ((trackNavigation s t1 e1 ts1).1, false) := by
  have hthr := (trackNavigation_snd_iff s t1 e1 ts1).mp hacc
  obtain ⟨hlct, hmin⟩ := trackNavigation_accepted_fields s t1 e1 ts1 hthr
  generalize hG : (trackNavigation s t1 e1 ts1).1 = s1 at hlct hmin ⊢
  unfold trackNavigation
  rw [if_pos (by rw [hlct, hmin]; exact hgap)]

/-- Witness for the amended C5: an accepted call at 1000 followed by a call
at 1100. -/
theorem throttle_after_accepted_attempt_witness :
    trackNavigation (trackNavigation (mkTracker "t0") 1000 ⟨none, none, 1, 2, 3⟩ "a").1
        1100 ⟨none, none, 4, 5, 6⟩ "b" =
      ((trackNavigation (mkTracker "t0") 1000 ⟨none, none, 1, 2, 3⟩ "a").1, false) :=
  throttle_after_accepted_attempt (mkTracker "t0") 1000 1100 ⟨none, none, 1, 2, 3⟩
    ⟨none, none, 4, 5, 6⟩ "a" "b" (by decide) (by decide)

/-- C6: with no pending action hint and a non-empty retrieved page source,
an unchanged hash short-circuits `getCurrentScreenName` to the current
screen with no classifier call and no state change at all; a changed hash
stores the new hash in `lastPageSourceHash` and runs the classifier. -/
theorem snapshot_hash_shortcut (s : TrackerState) (env : Env) (p : String)
    (hHint : s.lastAction = "") (hp : env.pageSource = some p) (hne : p ≠ "") :
    (hashString p = s.lastPageSourceHash →
      getCurrentScreenName s env =
        { name := s.currentScreen, state := s, usedHint := false,
          classifierInvoked := false }) ∧
    (hashString p ≠ s.lastPageSourceHash →
      (getCurrentScreenName s env).state.lastPageSourceHash = hashString p ∧
      (getCurrentScreenName s env).classifierInvoked = true) := by
  constructor
  · intro heq
    unfold getCurrentScreenName pageStep
    rw [hp]
    simp [hHint, hne, heq]
  · intro hneq
    unfold getCurrentScreenName pageStep
    rw [hp]
    simp [hHint, hne, hneq]
    split
    · exact ⟨rfl, rfl⟩
    · simp [urlStep_state, urlStep_classifierInvoked]

/-- Witness for C6 at a state whose stored hash matches the snapshot
`"ab"`. -/
theorem snapshot_hash_shortcut_witness :
    (hashString "ab" = ({ mkTracker "t0" with lastPageSourceHash := hashString "ab" } :
        TrackerState).lastPageSourceHash →
      getCurrentScreenName { mkTracker "t0" with lastPageSourceHash := hashString "ab" }
          ⟨some "ab", none, 1, 2, 3⟩ =
        { name := ({ mkTracker "t0" with lastPageSourceHash := hashString "ab" } :
            TrackerState).currentScreen,
          state := { mkTracker "t0" with lastPageSourceHash := hashString "ab" },
          usedHint := false, classifierInvoked := false }) ∧
    (hashString "ab" ≠ ({ mkTracker "t0" with lastPageSourceHash := hashString "ab" } :
        TrackerState).lastPageSourceHash →
      (getCurrentScreenName { mkTracker "t0" with lastPageSourceHash := hashString "ab" }
          ⟨some "ab", none, 1, 2, 3⟩).state.lastPageSourceHash = hashString "ab" ∧
      (getCurrentScreenName { mkTracker "t0" with lastPageSourceHash := hashString "ab" }
          ⟨some "ab", none, 1, 2, 3⟩).classifierInvoked = true) :=
  snapshot_hash_shortcut { mkTracker "t0" with lastPageSourceHash := hashString "ab" }
    ⟨some "ab", none, 1, 2, 3⟩ "ab" rfl rfl (by decide)

/-- C7: any page source containing all three home markers classifies as
`"Home Screen"`, regardless of any other content (in particular a back
marker with a detail-screen sub-marker, or a screen-title text marker) —
the home rule is checked first. -/
theorem home_marker_precedence (src : String)
    (h1 : strIncludes src "id=\"color\"" = true)
    (h2 : strIncludes src "id=\"Text\"" = true)
    (h3 : strIncludes src "id=\"toast\"" = true) :
    identifyScreenFromPageSource src = some "Home Screen" := by
  unfold identifyScreenFromPageSource
  rw [h1, h2, h3]
  simp

/-- Witness for C7: a snapshot carrying the three home markers together with
`id="Back"`, the detail sub-marker `id="colorSelection"` and the title
marker `>Color<` still classifies as the home screen. -/
theorem home_marker_precedence_witness :
    identifyScreenFromPageSource
        "<v id=\"color\"/><v id=\"Text\"/><v id=\"toast\"/><v id=\"Back\"/><v id=\"colorSelection\"/>>Color<" =
      some "Home Screen" :=
  home_marker_precedence _ (by decide) (by decide) (by decide)

/-- C8: for every construction timestamp, the freshly constructed tracker's
journal is exactly the single entry with `previous_screen = ""`,
`current_screen = "App Start"` and `navigation_type = "test_start"`,
appended during construction. -/
theorem first_journal_entry (ts : String) :
    (mkTracker ts).navigations =
      [{ previous_screen := "", current_screen := "App Start",
         timestamp := ts, navigation_type := "test_start" }] :=
  mkTracker_navs ts

/-- C9: `getCurrentScreenName` is a total function of its inputs (every
collaborator failure is a value of `Env`, so nothing propagates to the
caller), and in the worst case — no pending action hint and page-source
retrieval failing or returning empty — it returns exactly the synthetic
`fallbackName`, i.e. `"Screen at H:M:S"` built from the wall clock, with
the state unchanged. -/
theorem inference_fallback_total (s : TrackerState) (env : Env)
    (hHint : s.lastAction = "")
    (hps : env.pageSource = none ∨ env.pageSource = some "") :
    getCurrentScreenName s env =
      { name := fallbackName env, state := s, usedHint := false,
        classifierInvoked := false } := by
  have hgetD : env.pageSource.getD "" = "" := by
    rcases hps with h | h <;> rw [h] <;> rfl
  unfold getCurrentScreenName pageStep urlStep
  simp [hHint, hgetD]

/-- Witness for C9: a failing page-source retrieval at 9:5:7 yields the
synthetic name. -/
theorem inference_fallback_total_witness :
    getCurrentScreenName (mkTracker "t0") ⟨none, none, 9, 5, 7⟩ =
      { name := fallbackName ⟨none, none, 9, 5, 7⟩, state := mkTracker "t0",
        usedHint := false, classifierInvoked := false } :=
  inference_fallback_total (mkTracker "t0") ⟨none, none, 9, 5, 7⟩ rfl (Or.inl rfl)

/-- C10: `beforeClick` mutates `lastAction` only for a non-empty element id
that is a key of the action-to-screen map, and leaves the whole state
untouched otherwise, while `recordUserAction` sets `lastAction`
unconditionally. -/
theorem beforeClick_guarded_hint (s : TrackerState) (id ts : String) :
    ((id = "" ∨ actionScreenGet id = none) → beforeClick s id = s) ∧
    (id ≠ "" → (actionScreenGet id).isSome = true →
      beforeClick s id = { s with lastAction := id }) ∧
    (recordUserAction s id ts).lastAction = id := by
  refine ⟨?_, ?_, ?_⟩
  · intro h
    unfold beforeClick
    rcases h with h | h <;> simp [h]
  · intro hid hsome
    unfold beforeClick
    simp [hid, hsome]
  · unfold recordUserAction
    dsimp only
    repeat' split
    · rw [addNavigation_lastAction]
    · rfl
    · rfl

/-- Witness for C10: an unmapped id leaves the state unchanged, a mapped id
sets the hint, and `recordUserAction` records even an unmapped id. -/
theorem beforeClick_guarded_hint_witness :
    beforeClick (mkTracker "t0") "unknown" = mkTracker "t0" ∧
    beforeClick (mkTracker "t0") "color" = { mkTracker "t0" with lastAction := "color" } ∧
    (recordUserAction (mkTracker "t0") "zzz" "t1").lastAction = "zzz" :=
  ⟨(beforeClick_guarded_hint (mkTracker "t0") "unknown" "t1").1 (Or.inr rfl),
   (beforeClick_guarded_hint (mkTracker "t0") "color" "t1").2.1 (by decide) rfl,
   (beforeClick_guarded_hint (mkTracker "t0") "zzz" "t1").2.2⟩

end NavTracker
